import Mathlib

/-!
# Cosmic Lottery — verification of the simulation core

Shallow embedding of the cosmic_lottery particle simulation:
the phase state machine (`SimulationController.js`, and the validated
variant in the unnamed controller snapshot `src/unnamed/part_002`),
the lucky-draw selection loop, the per-particle physics integrator of
`worker.js`, and the worker message protocol.

Numeric conventions: the host's floating-point numbers are modelled as
exact rationals `ℚ` (reals `ℝ` where the code uses transcendental
functions).  JS division by zero yields `NaN`/`Infinity`; in the `ℚ`
model `x / 0 = 0`.  Each place where this matters is noted.
-/

/-- The six phases of `ANIMATION_CONFIG.PHASES` together with the
`'selection'` phase used throughout the feature-complete controller
snapshot (part_002) and `SimulationController.js`. -/
inductive Phase where
  | floating
  | swirling
  | blackhole
  | clashing
  | selection
  | liningUp
deriving DecidableEq, Repr, Fintype

/-- The `validTransitions` table of `isValidPhaseTransition`
(part_002:503-510): for each phase, the list of phases it may move to. -/
def validTransitionsTable : Phase → List Phase
  | .floating => [.swirling]
  | .swirling => [.blackhole]
  | .blackhole => [.clashing]
  | .clashing => [.selection]
  | .selection => [.liningUp]
  | .liningUp => []

/-- `isValidPhaseTransition(oldPhase, newPhase)` (part_002:502-513):
`validTransitions[oldPhase]?.includes(newPhase) || oldPhase === newPhase`. -/
def isValidPhaseTransition (oldPhase newPhase : Phase) : Bool :=
  (validTransitionsTable oldPhase).contains newPhase || oldPhase == newPhase

/-- The transition table as the specification words it: exactly the five
edges of the fixed total order
Floating → Swirling → Blackhole → Clashing → Selection → LiningUp,
with everything else rejected.  Stated from the spec for comparison with
the source's `isValidPhaseTransition`. -/
def claimTransitionTable (oldPhase newPhase : Phase) : Bool :=
  decide ((oldPhase, newPhase) ∈
    [(Phase.floating, Phase.swirling), (Phase.swirling, Phase.blackhole),
     (Phase.blackhole, Phase.clashing), (Phase.clashing, Phase.selection),
     (Phase.selection, Phase.liningUp)])

/-- `ANIMATION_CONFIG.DURATIONS.SWIRL` (part_005:23): 8000 ms. -/
def DURATION_SWIRL : ℚ := 8000

/-- `ANIMATION_CONFIG.DURATIONS.BLACKHOLE` (part_005:24): 4000 ms. -/
def DURATION_BLACKHOLE : ℚ := 4000

/-- `ANIMATION_CONFIG.DURATIONS.LINE_UP` (part_005:26): 2000 ms. -/
def DURATION_LINE_UP : ℚ := 2000

/-- `ANIMATION_CONFIG.DURATIONS.CLASH`, read by `updatePhase`
(SimulationController.js:327).  The config object (part_005:22-27) has
keys SWIRL, BLACKHOLE, EXPLOSION and LINE_UP only, so this property
access yields `undefined`: modelled as `none`. -/
def DURATION_CLASH : Option ℚ := none

/-- `ANIMATION_CONFIG.DURATIONS[phase.toUpperCase()]` as read by
`calculatePhaseProgress` (SimulationController.js:245-252, identically
part_002:352-359).  The keys tried are FLOATING, SWIRLING, BLACKHOLE,
CLASHING, SELECTION, LININGUP; the config (part_005:22-27) only defines
SWIRL, BLACKHOLE, EXPLOSION, LINE_UP, so only the blackhole lookup
finds a value. -/
def durationsLookupForPhase : Phase → Option ℚ
  | .blackhole => some DURATION_BLACKHOLE
  | _ => none

/-- Controller state: the fields of `SimulationController` that the
simulation core reads and writes (SimulationController.js:14-38,
part_002:14-38; rendering/UI collaborator handles omitted).
`invalidLog` records the debug-track entries written by the part_002
`setPhase` when it rejects a transition (part_002:454). -/
structure CtrlState where
  simulationStarted : Bool
  luckyParticleSelected : Bool
  luckyParticleCount : ℕ
  particleCount : ℕ
  currentPhase : Phase
  phaseStartTime : ℚ
  blackholeStartTime : ℚ
  clashStartTime : ℚ
  lineUpStartTime : ℚ
  lineUpDuration : ℚ
  selectedIndices : List ℕ
  targetPositions : List (ℕ × ℚ × ℚ × ℚ)
  invalidLog : List (Phase × Phase)
deriving DecidableEq, Repr

/-- `setPhase(newPhase)` of SimulationController.js:343-385 (the
unvalidated controller variant): unconditionally installs the new phase
and `phaseStartTime = now`, then runs the per-phase initialization
(swirling schedules `blackholeStartTime = now + DURATIONS.SWIRL`,
clashing records `clashStartTime`, liningUp records `lineUpStartTime`;
the blackhole case only toggles renderer visibility, which is outside
the core state). -/
def setPhase (st : CtrlState) (newPhase : Phase) (now : ℚ) : CtrlState :=
  let st1 := { st with currentPhase := newPhase, phaseStartTime := now }
  match newPhase with
  | .swirling => { st1 with blackholeStartTime := now + DURATION_SWIRL }
  | .clashing => { st1 with clashStartTime := now }
  | .liningUp => { st1 with lineUpStartTime := now }
  | _ => st1

/-- `calculatePhaseProgress(timestamp)` (SimulationController.js:245-252):
looks up `DURATIONS[currentPhase.toUpperCase()]`; if the key is absent
(`!duration`), returns 0, otherwise `min(1, elapsed / duration)`. -/
def calculatePhaseProgress (st : CtrlState) (timestamp : ℚ) : ℚ :=
  match durationsLookupForPhase st.currentPhase with
  | none => 0
  | some d => min 1 ((timestamp - st.phaseStartTime) / d)

/-- `updatePhase(timestamp)` (SimulationController.js:302-338): bail out
unless the simulation started and the current phase's progress reached 1;
then advance by the per-phase exit condition.  The clashing exit compares
against `DURATIONS.CLASH`, which is `undefined` in the config; in JS
`x >= undefined` is false, modelled by the `none` branch. -/
def updatePhase (st : CtrlState) (timestamp : ℚ) : CtrlState :=
  if st.simulationStarted = false then st
  else if calculatePhaseProgress st timestamp < 1 then st
  else
    match st.currentPhase with
    | .floating =>
        if st.luckyParticleSelected then setPhase st .swirling timestamp else st
    | .swirling =>
        if st.blackholeStartTime ≤ timestamp then setPhase st .blackhole timestamp else st
    | .blackhole => setPhase st .clashing timestamp
    | .clashing =>
        match DURATION_CLASH with
        | none => st
        | some d =>
            if d ≤ timestamp - st.clashStartTime then setPhase st .selection timestamp else st
    | .selection =>
        if st.lineUpDuration ≤ timestamp - st.lineUpStartTime then setPhase st .liningUp timestamp
        else st
    | .liningUp => st

/-- The rejection-sampling loop of `selectLuckyParticles`
(SimulationController.js:516-518, identically part_002:744-746):
`while (indices.size < count) indices.add(Math.floor(Math.random() * particleCount))`.
The pseudo-random draws are modelled by the stream `rng` (the value of
`Math.floor(Math.random() * particleCount)` at the `step`-th call); the
accumulator is kept as a list in insertion order, matching JS `Set`
iteration order.  The loop has no bound in the source; `fuel` counts
loop iterations, and exhausting it (`none`) models non-termination. -/
def selectLoop (rng : ℕ → ℕ) (count : ℕ) : ℕ → ℕ → List ℕ → Option (List ℕ)
  | 0, _, acc => if acc.length < count then none else some acc
  | fuel + 1, step, acc =>
      if acc.length < count then
        let x := rng step
        selectLoop rng count fuel (step + 1) (if x ∈ acc then acc else acc ++ [x])
      else some acc

/-- `selectLuckyParticles(count)`'s draw (SimulationController.js:511-518):
`particleCount = particlePositions.length / 3` (here `n`), then the
rejection loop starting from an empty set. -/
def selectLuckyDraw (rng : ℕ → ℕ) (count fuel : ℕ) : Option (List ℕ) :=
  selectLoop rng count fuel 0 []

/-- JS `Map.set` (insertion-order preserving): update the entry in place
when the key is present, otherwise append. -/
def mapSet (m : List (ℕ × ℚ × ℚ × ℚ)) (k : ℕ) (v : ℚ × ℚ × ℚ) : List (ℕ × ℚ × ℚ × ℚ) :=
  match m with
  | [] => [(k, v)]
  | (k1, v1) :: t => if k1 = k then (k, v) :: t else (k1, v1) :: mapSet t k v

/-- The target x-coordinate assigned to draw-order rank `r` of a draw of
size `k`: `-1 + (i * 2 / (indices.length - 1))`
(SimulationController.js:554-558, part_002:1644-1648).  For `k = 1` the
source divides by zero: JS produces `NaN`; in this exact model
`x / 0 = 0`, so the value is `-1`.  Either way it is not `0`. -/
def targetX (k r : ℕ) : ℚ :=
  -1 + (r * 2) / ((k : ℚ) - 1)

/-- The `targetPositions.set(index, new THREE.Vector3(-1 + i*2/(len-1), 0, 0))`
loop shared by `createSelectedParticleMeshes`
(SimulationController.js:538-561) and `updateSelectedParticleTargets`
(part_002:1641-1650): each selected index, in draw order, gets the
evenly spaced target with `y = 0`, `z = 0`. -/
def setTargets (m : List (ℕ × ℚ × ℚ × ℚ)) (l : List ℕ) : List (ℕ × ℚ × ℚ × ℚ) :=
  (l.enum).foldl (fun acc p => mapSet acc p.2 (targetX l.length p.1, 0, 0)) m

/-- `startLuckyDraw(targetCount)` (SimulationController.js:500-506):
guarded by the `simulationStarted` and `luckyParticleSelected` flags;
otherwise sets the drawn flag, runs `selectLuckyParticles` (draw, store
the selection, assign the meshes/targets, notify the worker) and enters
the swirling phase.  `none` models the draw loop never terminating. -/
def startLuckyDraw (rng : ℕ → ℕ) (fuel : ℕ) (st : CtrlState) (targetCount : ℕ) (now : ℚ) :
    Option CtrlState :=
  if st.simulationStarted = false ∨ st.luckyParticleSelected = true then some st
  else
    match selectLuckyDraw rng targetCount fuel with
    | none => none
    | some l =>
        some (setPhase
          { st with luckyParticleSelected := true
                    selectedIndices := l
                    targetPositions := setTargets st.targetPositions l }
          .swirling now)

/-- `setPhase(newPhase)` of the validated controller snapshot
(part_002:448-513) together with the `handlePhaseInitialization` it
calls (part_002:518-557), inlined: invalid transitions are logged and
the state is returned untouched; valid ones install the phase and
`phaseStartTime`, then run per-phase initialization.  Entry into
selection may trigger `startLuckyDraw` (part_002:546-548), whose body
(part_002:728-734) sets the drawn flag, draws, and recursively requests
swirling — the recursion is bounded by `fuel` (depth 2 suffices in any
run, because the drawn flag is set before the nested request).  Entry
into liningUp reruns `updateSelectedParticleTargets` (part_002:552-554).
`none` models a non-terminating nested draw (or exhausted fuel). -/
def setPhaseChecked (rng : ℕ → ℕ) (selFuel : ℕ) :
    ℕ → CtrlState → Phase → ℚ → Option CtrlState
  | 0, _, _, _ => none
  | fuel + 1, st, newPhase, now =>
      if isValidPhaseTransition st.currentPhase newPhase = false then
        some { st with invalidLog := (st.currentPhase, newPhase) :: st.invalidLog }
      else
        let st1 := { st with currentPhase := newPhase, phaseStartTime := now }
        match newPhase with
        | .swirling => some { st1 with blackholeStartTime := now + DURATION_SWIRL }
        | .clashing => some { st1 with clashStartTime := now }
        | .selection =>
            if st1.luckyParticleSelected = false ∧ st1.luckyParticleCount ≠ 0 then
              -- startLuckyDraw body, part_002:728-734
              if st1.simulationStarted = false ∨ st1.luckyParticleSelected = true then some st1
              else
                match selectLuckyDraw rng st1.luckyParticleCount selFuel with
                | none => none
                | some l =>
                    setPhaseChecked rng selFuel fuel
                      { st1 with luckyParticleSelected := true
                                 selectedIndices := l
                                 targetPositions := setTargets st1.targetPositions l }
                      .swirling now
            else some st1
        | .liningUp =>
            some { st1 with lineUpStartTime := now
                            targetPositions := setTargets st1.targetPositions st1.selectedIndices }
        | _ => some st1

/-- One particle's (x, y, z) triple: three consecutive entries of the
flat `Float32Array` buffers (`PARTICLE_STRIDE = 3`, worker.js:11). -/
structure V3 where
  x : ℚ
  y : ℚ
  z : ℚ
deriving DecidableEq, Repr

/-- Componentwise scaling, as in the per-axis loops of worker.js. -/
def V3.scale (c : ℚ) (v : V3) : V3 := ⟨c * v.x, c * v.y, c * v.z⟩

/-- Componentwise addition, as in the per-axis `+=` loops of worker.js. -/
def V3.add (a b : V3) : V3 := ⟨a.x + b.x, a.y + b.y, a.z + b.z⟩

/-- The zero triple. -/
def V3.zero : V3 := ⟨0, 0, 0⟩

/-- `bounceFactor = 0.8` (worker.js:445; the same literal `-0.8` is used
in `handleBlackholeCollisions`, worker.js:435-438). -/
def bounceFactor : ℚ := 4 / 5

/-- One axis of `handleBoundaryCollisions` (worker.js:447-459): the
position advances by the velocity, then if it penetrates a face of the
box (by more than `particleRadius`) the axis velocity is multiplied by
`-bounceFactor` and the position is pinned to the face. -/
def boundaryAxis (halfBox radius p v : ℚ) : ℚ × ℚ :=
  if halfBox < p + v + radius then (halfBox - radius, -bounceFactor * v)
  else if p + v - radius < -halfBox then (-halfBox + radius, -bounceFactor * v)
  else (p + v, v)

/-- `handleBoundaryCollisions` (worker.js:444-460): the axis rule applied
to x, y and z. Returns (new position, new velocity). -/
def handleBoundaryCollisions (halfBox radius : ℚ) (p v : V3) : V3 × V3 :=
  let rx := boundaryAxis halfBox radius p.x v.x
  let ry := boundaryAxis halfBox radius p.y v.y
  let rz := boundaryAxis halfBox radius p.z v.z
  (⟨rx.1, ry.1, rz.1⟩, ⟨rx.2, ry.2, rz.2⟩)

/-- The near-center fade of `handleBlackholeCollisions` (worker.js:416-428):
an unselected particle closer to the center than `halfBox * 0.1` has its
velocity scaled by `0.95`.  The source compares
`sqrt(x² + y² + z²) < halfBox * 0.1`; with `0 ≤ halfBox` this is exactly
the squared comparison used here. -/
def blackholeFadeVel (isSelected : Bool) (halfBox : ℚ) (p v : V3) : V3 :=
  if isSelected = false ∧ p.x ^ 2 + p.y ^ 2 + p.z ^ 2 < (halfBox * (1 / 10)) ^ 2 ∧ 0 ≤ halfBox
  then V3.scale (19 / 20) v
  else v

/-- `handleBlackholeCollisions` (worker.js:415-442): the fade followed by
the same per-axis integrate-and-bounce as `handleBoundaryCollisions`
(worker.js:431-441 uses the literal `-0.8`). -/
def handleBlackholeCollisions (isSelected : Bool) (halfBox radius : ℚ) (p v : V3) : V3 × V3 :=
  handleBoundaryCollisions halfBox radius p (blackholeFadeVel isSelected halfBox p v)

/-- The body of the per-particle loop of `updateParticlePhysics`
(worker.js:275-309) for one particle.

* worker.js:280 — during liningUp a selected particle is skipped
  (`continue`): nothing at all happens to it.
* worker.js:283-285 — velocity damping `v *= params.damping`.
* worker.js:287-301 — the phase switch.  Every phase-specific routine
  (`applyFloatingPhysics` :312-329, `applySwirlPhysics` :331-368,
  `applyBlackholePhysics` :370-402, `applyClashPhysics` :404-413) only
  ever executes `velocities[..] += term` / `-= term`, so its entire
  effect is adding one accumulated force triple, supplied here as `F`
  (it bundles the pseudo-random jitter and the phase coefficients).
  The switch has no case for selection or liningUp, so no force is
  added in those phases.
* worker.js:303-308 — blackhole and clashing route through
  `handleBlackholeCollisions`, everything else through
  `handleBoundaryCollisions`. -/
def particleStep (phase : Phase) (isSelected : Bool) (damping halfBox radius : ℚ)
    (F : V3) (p v : V3) : V3 × V3 :=
  if phase = .liningUp ∧ isSelected = true then (p, v)
  else
    let v1 := V3.scale damping v
    let v2 :=
      match phase with
      | .floating | .swirling | .blackhole | .clashing => V3.add v1 F
      | _ => v1
    if phase = .blackhole ∨ phase = .clashing then
      handleBlackholeCollisions isSelected halfBox radius p v2
    else
      handleBoundaryCollisions halfBox radius p v2

/-- The full pass of `updateParticlePhysics` over the buffers
(worker.js:251-310): one `particleStep` per particle, with
`isSelected = selectedIndices.includes(i)` (worker.js:277) and the
per-particle accumulated force `F i`.  `halfBox = params.boxSize / 2`
(worker.js:271). -/
def updateParticlePhysicsPass (phase : Phase) (selected : List ℕ)
    (damping boxSize radius : ℚ) (F : ℕ → V3)
    (positions velocities : List V3) : List V3 × List V3 :=
  let halfBox := boxSize / 2
  let results := (List.range positions.length).map fun i =>
    particleStep phase (selected.contains i) damping halfBox radius (F i)
      (positions.getD i V3.zero) (velocities.getD i V3.zero)
  (results.map Prod.fst, results.map Prod.snd)

/-- The optional `params` payload of an `updateSelected` message
(worker.js:117 reads `data.params`, worker.js:237 reads
`params?.glowIntensity`): the payload itself may be absent, and so may
its `glowIntensity` field. -/
structure SelParams where
  glowIntensity : Option ℚ
deriving DecidableEq, Repr

/-- `params?.glowIntensity || 1.0` (worker.js:237): absent payload,
absent field, and the falsy value `0` all default to `1.0`. -/
def effectiveGlow : Option SelParams → ℚ
  | none => 1
  | some sp =>
      match sp.glowIntensity with
      | none => 1
      | some g => if g = 0 then 1 else g

/-- `applySelectionEffects(selectedParticles, params)` (worker.js:236-243):
for each selected index, `velocities[index*3 + 2] += 0.5 * glowIntensity`
— only the z component of that particle's velocity entry changes.
Buffers are `List V3`, so the flat offset `index*3 + 2` is the `z` field
of entry `index`; a write past the end of a JS typed array is discarded,
matching `List.modify` out of range. -/
def applySelectionEffects (selectedParticles : List ℕ) (glow : ℚ)
    (velocities : List V3) : List V3 :=
  selectedParticles.foldl
    (fun acc i => List.modify (fun v => ⟨v.x, v.y, v.z + 1 / 2 * glow⟩) i acc)
    velocities

/-- The worker's module-level mutable state (worker.js:4-31):
the two buffers, the selected-index array, the worker's own phase
(`'idle'` at start, modelled `none`, worker.js:29), the frame counter
and the `isProcessing` reentrancy flag. -/
structure WorkerState where
  positions : List V3
  velocities : List V3
  selected : List ℕ
  workerPhase : Option Phase
  frameCount : ℕ
  isProcessing : Bool
deriving DecidableEq, Repr

/-- The physics parameters an `update` message carries that the
integrator pass reads directly (the force coefficients are bundled into
the per-particle force oracle). -/
structure UpdateParams where
  damping : ℚ
  boxSize : ℚ
  particleRadius : ℚ
deriving DecidableEq, Repr

/-- The worker commands of worker.js:71-126, each carrying the fields the
handler requires (`validateMessage` has checked their presence). -/
inductive WMsg where
  | init (particleCount : ℕ)
  | update (params : UpdateParams) (phase : Phase) (time : ℚ)
  | updateSelected (selected : List ℕ) (params : Option SelParams)
  | reset
deriving DecidableEq, Repr

/-- The responses the worker posts back (worker.js:78-81, 104-108,
171-173); `updateSelected` posts nothing. -/
inductive WResp where
  | initialized
  | updated (phase : Option Phase) (frame : ℕ)
  | resetComplete
deriving DecidableEq, Repr

/-- `handlePhaseTransition(oldPhase, newPhase, params)` (worker.js:138-160):
of its cases (`PHASE.ORBITING`, `PHASE.SELECTION`, `PHASE.FINALE`,
`PHASE.IDLE`), only `PHASE.SELECTION` (the string `'selection'`) can be
hit by a phase the controller sends; it runs `prepareForSelection`
(worker.js:196-209), which keeps every position and halves every
velocity. -/
def handlePhaseTransition (st : WorkerState) (newPhase : Phase) : WorkerState :=
  match newPhase with
  | .selection => { st with velocities := st.velocities.map (V3.scale (1 / 2)) }
  | _ => st

/-- The `switch (command)` body of the worker message handler
(worker.js:71-126), acting on the state and producing the optional
response.  `F` supplies the per-particle accumulated phase force of the
pass (randomness oracle). -/
def workerCommand (st : WorkerState) (m : WMsg) (F : ℕ → V3) :
    WorkerState × Option WResp :=
  match m with
  | .init particleCount =>
      -- worker.js:72-82: createBuffers, phase := idle, frame := 0
      (⟨List.replicate particleCount V3.zero, List.replicate particleCount V3.zero,
        [], none, 0, st.isProcessing⟩, some .initialized)
  | .update params phase time =>
      -- worker.js:84-109
      let st1 := if st.workerPhase ≠ some phase then
          { handlePhaseTransition st phase with workerPhase := some phase }
        else st
      let pass := updateParticlePhysicsPass phase st1.selected params.damping
        params.boxSize params.particleRadius F st1.positions st1.velocities
      let st2 := { st1 with positions := pass.1
                            velocities := pass.2
                            frameCount := st1.frameCount + 1 }
      (st2, some (.updated st2.workerPhase st2.frameCount))
  | .updateSelected sel params =>
      -- worker.js:111-118
      ({ st with selected := sel,
                 velocities := applySelectionEffects sel (effectiveGlow params) st.velocities },
       none)
  | .reset =>
      -- worker.js:120-121, 162-174
      ({ st with positions := st.positions.map (fun _ => V3.zero),
                 velocities := st.velocities.map (fun _ => V3.zero),
                 selected := [], workerPhase := none, frameCount := 0 },
       some .resetComplete)

/-- `self.onmessage` (worker.js:61-136): a message arriving while
`isProcessing` is set is dropped outright (worker.js:62-65); otherwise
the flag is raised, the command body runs, and the `finally` clause
lowers the flag (worker.js:133-135). -/
def workerOnMessage (st : WorkerState) (m : WMsg) (F : ℕ → V3) :
    WorkerState × Option WResp :=
  if st.isProcessing then (st, none)
  else
    let st1 := { st with isProcessing := true }
    let r := workerCommand st1 m F
    ({ r.1 with isProcessing := false }, r.2)

/-- `easing.easeInExpo` (worker.js:26):
`t => t === 0 ? 0 : Math.pow(2, 10 * t - 10)`. -/
noncomputable def easeInExpo (t : ℝ) : ℝ :=
  if t = 0 then 0 else (2 : ℝ) ^ (10 * t - 10)

/-- The parameters the blackhole coefficient ramp reads
(worker.js:256-268). -/
structure BlackholeParams where
  gravitationalPull : ℝ
  maxGravitationalPull : ℝ
  orbitalVelocityFactor : ℝ
  maxOrbitalVelocityFactor : ℝ
  blackholeStartTime : ℝ
  blackholeDuration : ℝ

/-- `progress = Math.min(1, (time - params.blackholeStartTime) / params.blackholeDuration)`
(worker.js:260). -/
noncomputable def blackholeProgress (p : BlackholeParams) (time : ℝ) : ℝ :=
  min 1 ((time - p.blackholeStartTime) / p.blackholeDuration)

/-- `currentGravity` as computed by `updateParticlePhysics`
(worker.js:256-268): the base `params.gravitationalPull`, ramped toward
`params.maxGravitationalPull` by `easeInExpo` of the phase progress
during the blackhole phase. -/
noncomputable def currentGravity (p : BlackholeParams) (phase : Phase) (time : ℝ) : ℝ :=
  if phase = .blackhole then
    p.gravitationalPull +
      (p.maxGravitationalPull - p.gravitationalPull) * easeInExpo (blackholeProgress p time)
  else p.gravitationalPull

/-- `currentOrbital` (worker.js:257, 266-267), same ramp for the orbital
coefficient. -/
noncomputable def currentOrbital (p : BlackholeParams) (phase : Phase) (time : ℝ) : ℝ :=
  if phase = .blackhole then
    p.orbitalVelocityFactor +
      (p.maxOrbitalVelocityFactor - p.orbitalVelocityFactor) *
        easeInExpo (blackholeProgress p time)
  else p.orbitalVelocityFactor

/-- The coefficient formula as the specification words it:
`base + (max - base) * ease(p)` with `ease(t) = 2^(10t-10)`, `ease(0) = 0`.
Stated from the spec for comparison with the source's computation. -/
noncomputable def specRampedCoefficient (base maxv progress : ℝ) : ℝ :=
  base + (maxv - base) * (if progress = 0 then 0 else (2 : ℝ) ^ (10 * progress - 10))

/-- Schedule: request `m1` is honored alone. -/
def runSingle (st : WorkerState) (m1 : WMsg) (F1 : ℕ → V3) :
    WorkerState × Option WResp :=
  workerOnMessage st m1 F1

/-- Schedule: a second request `m2` is delivered while `m1` is still
being processed (between the raising and the lowering of
`isProcessing`), after which `m1`'s processing completes. -/
def runInterleaved (st : WorkerState) (m1 m2 : WMsg) (F1 F2 : ℕ → V3) :
    WorkerState × Option WResp :=
  if st.isProcessing then (st, none)
  else
    let st1 := { st with isProcessing := true }
    let mid := workerOnMessage st1 m2 F2
    let r := workerCommand mid.1 m1 F1
    ({ r.1 with isProcessing := false }, r.2)

/-- A concrete controller state used to evaluate the theorems: mid-run,
draw already done, currently swirling. -/
def sampleSwirlState : CtrlState where
  simulationStarted := true
  luckyParticleSelected := true
  luckyParticleCount := 2
  particleCount := 3
  currentPhase := .swirling
  phaseStartTime := 0
  blackholeStartTime := 8000
  clashStartTime := 0
  lineUpStartTime := 0
  lineUpDuration := 2000
  selectedIndices := [0, 1]
  targetPositions := []
  invalidLog := []

/-- The claim's `clampToBox`: the nearest point of the admissible
interval `[-(halfBox - radius), halfBox - radius]` for one axis.
Stated from the claim's words for comparison with the source's
`handleBoundaryCollisions`. -/
def clampToBox (halfBox radius x : ℚ) : ℚ :=
  min (halfBox - radius) (max (-halfBox + radius) x)

/-- A concrete controller state used to evaluate the theorems: fresh run
still floating, nothing drawn yet. -/
def sampleFloatState : CtrlState where
  simulationStarted := true
  luckyParticleSelected := false
  luckyParticleCount := 2
  particleCount := 3
  currentPhase := .floating
  phaseStartTime := 0
  blackholeStartTime := 0
  clashStartTime := 0
  lineUpStartTime := 0
  lineUpDuration := 2000
  selectedIndices := []
  targetPositions := []
  invalidLog := []

/-- A concrete worker state used to evaluate the theorems: three
particles, second one selected, idle between requests. -/
def sampleWorkerState : WorkerState where
  positions := [⟨0, 0, 0⟩, ⟨1, 2, 3⟩, ⟨-4, 0, 5⟩]
  velocities := [⟨1, 0, 0⟩, ⟨0, 1, 0⟩, ⟨0, 0, 1⟩]
  selected := [1]
  workerPhase := some .floating
  frameCount := 7
  isProcessing := false

section SelectLoopLemmas

/-- Invariant of the rejection-sampling loop: starting from a duplicate
free accumulator of in-range indices no longer than the requested
count, any value the loop returns is duplicate free, in range, and of
length exactly `count`. -/
theorem selectLoop_some_spec (rng : ℕ → ℕ) (N count : ℕ) (hrng : ∀ s, rng s < N) :
    ∀ (fuel step : ℕ) (acc l : List ℕ), acc.Nodup → (∀ x ∈ acc, x < N) →
      acc.length ≤ count → selectLoop rng count fuel step acc = some l →
      l.Nodup ∧ (∀ x ∈ l, x < N) ∧ l.length = count := by
  intro fuel
  induction fuel with
  | zero =>
      intro step acc l hnd hmem hlen hrun
      unfold selectLoop at hrun
      by_cases hlt : acc.length < count
      · simp [hlt] at hrun
      · simp [hlt] at hrun
        subst hrun
        exact ⟨hnd, hmem, le_antisymm hlen (not_lt.mp hlt)⟩
  | succ fuel ih =>
      intro step acc l hnd hmem hlen hrun
      unfold selectLoop at hrun
      by_cases hlt : acc.length < count
      · simp only [hlt, if_true] at hrun
        by_cases hx : rng step ∈ acc
        · simp only [hx, if_true] at hrun
          exact ih (step + 1) acc l hnd hmem hlen hrun
        · simp only [hx, if_false] at hrun
          refine ih (step + 1) (acc ++ [rng step]) l ?_ ?_ ?_ hrun
          · simp [List.nodup_append, hnd, List.disjoint_singleton, hx]
          · intro x hxm
            rcases List.mem_append.mp hxm with h | h
            · exact hmem x h
            · rcases List.mem_singleton.mp h with rfl
              exact hrng step
          · simpa using Nat.succ_le_of_lt hlt
      · simp only [hlt, if_false, Option.some.injEq] at hrun
        subst hrun
        exact ⟨hnd, hmem, le_antisymm hlen (not_lt.mp hlt)⟩

/-- A duplicate-free list of naturals below `N` has length at most `N`. -/
theorem nodup_lt_length_le (N : ℕ) (acc : List ℕ) (hnd : acc.Nodup)
    (hmem : ∀ x ∈ acc, x < N) : acc.length ≤ N := by
  have hsub : acc.toFinset ⊆ Finset.range N := by
    intro x hx
    exact Finset.mem_range.mpr (hmem x (List.mem_toFinset.mp hx))
  have := Finset.card_le_card hsub
  rwa [List.toFinset_card_of_nodup hnd, Finset.card_range] at this

/-- When more indices are requested than exist, the loop can never fill
its accumulator and never produces a value, whatever the fuel. -/
theorem selectLoop_none_of_gt (rng : ℕ → ℕ) (N count : ℕ) (hrng : ∀ s, rng s < N)
    (hcount : N < count) :
    ∀ (fuel step : ℕ) (acc : List ℕ), acc.Nodup → (∀ x ∈ acc, x < N) →
      selectLoop rng count fuel step acc = none := by
  intro fuel
  induction fuel with
  | zero =>
      intro step acc hnd hmem
      have hlt : acc.length < count :=
        lt_of_le_of_lt (nodup_lt_length_le N acc hnd hmem) hcount
      unfold selectLoop
      simp [hlt]
  | succ fuel ih =>
      intro step acc hnd hmem
      have hlt : acc.length < count :=
        lt_of_le_of_lt (nodup_lt_length_le N acc hnd hmem) hcount
      unfold selectLoop
      simp only [hlt, if_true]
      by_cases hx : rng step ∈ acc
      · simp only [hx, if_true]
        exact ih (step + 1) acc hnd hmem
      · simp only [hx, if_false]
        refine ih (step + 1) (acc ++ [rng step]) ?_ ?_
        · simp [List.nodup_append, hnd, List.disjoint_singleton, hx]
        · intro x hxm
          rcases List.mem_append.mp hxm with h | h
          · exact hmem x h
          · rcases List.mem_singleton.mp h with rfl
            exact hrng step

end SelectLoopLemmas

/-- C1: whenever the `selectLuckyParticles` draw loop returns (any fuel),
it has produced exactly `count` distinct indices, each in `[0, N)`;
and once the drawn flag is set, `startLuckyDraw` returns immediately,
leaving the whole controller state — selection set included — unchanged. -/
theorem selectLuckyParticles_unique_and_draw_once
    (rng : ℕ → ℕ) (N count fuel : ℕ) (st : CtrlState) (targetCount : ℕ) (now : ℚ)
    (hrng : ∀ s, rng s < N) :
    (∀ l, selectLuckyDraw rng count fuel = some l →
      l.length = count ∧ l.Nodup ∧ ∀ x ∈ l, x < N) ∧
    (st.luckyParticleSelected = true →
      startLuckyDraw rng fuel st targetCount now = some st) := by
  constructor
  · intro l hrun
    have h := selectLoop_some_spec rng N count hrng fuel 0 [] l (by simp) (by simp)
      (by simp) hrun
    exact ⟨h.2.2, h.1, h.2.1⟩
  · intro hdrawn
    simp [startLuckyDraw, hdrawn]

/-- C1 witness: a concrete run — `rng` cycling through 0, 1, 2 with
`N = 3`, drawing `count = 2` — returns `[0, 1]`, which has the stated
properties; and a re-draw on `sampleSwirlState` (drawn flag set) is a
no-op. -/
theorem selectLuckyParticles_unique_and_draw_once_witness :
    (selectLuckyDraw (fun s => s % 3) 2 2 = some [0, 1]) ∧
    ([0, 1].length = 2 ∧ [0, 1].Nodup ∧ ∀ x ∈ [0, 1], x < 3) ∧
    (startLuckyDraw (fun s => s % 3) 2 sampleSwirlState 2 0 = some sampleSwirlState) := by
  have h := selectLuckyParticles_unique_and_draw_once (fun s => s % 3) 3 2 2
    sampleSwirlState 2 0 (fun s => Nat.mod_lt s (by norm_num))
  refine ⟨by decide, h.1 [0, 1] (by decide), h.2 (by decide)⟩

/-- C9: requesting more distinct indices than there are particles makes
the rejection-sampling loop diverge — for every amount of fuel the loop
is still running (`none`), since the drawn set can hold at most `N`
distinct values and never reaches size `count`. -/
theorem selectLuckyParticles_diverges_when_count_gt_n
    (rng : ℕ → ℕ) (N count : ℕ) (hrng : ∀ s, rng s < N) (hcount : N < count) :
    ∀ fuel, selectLuckyDraw rng count fuel = none := by
  intro fuel
  exact selectLoop_none_of_gt rng N count hrng hcount fuel 0 [] (by simp) (by simp)

/-- C9 witness: with a single particle (`N = 1`, `rng` constantly 0) and
`count = 2`, the loop is still unfinished after 50 iterations. -/
theorem selectLuckyParticles_diverges_when_count_gt_n_witness :
    selectLuckyDraw (fun _ => 0) 2 50 = none := by
  have h := selectLuckyParticles_diverges_when_count_gt_n (fun _ => 0) 1 2
    (fun _ => Nat.one_pos) (by norm_num)
  exact h 50

/-- C2: evaluating the target-position assignment.  For a draw of size
`K = 1` (single selected index 5) the code divides by zero in
`-1 + (0 * 2 / (1 - 1))`: `NaN` in JS, `-1` in this exact model — in no
semantics the value `0` the claim requires, so the `K = 1` clause fails
on the code.  For `K ≥ 2` the claim's structure holds, shown here on the
spec's own end-to-end example `K = 6`: all targets have `y = 0`, `z = 0`
and the `x` values are exactly `-1, -3/5, -1/5, 1/5, 3/5, 1` — strictly
increasing, spanning `[-1, 1]` with both endpoints included. -/
theorem targetPositions_k1_div_zero :
    setTargets [] [5] = [(5, -1, 0, 0)] ∧
    targetX 1 0 = -1 ∧ ((-1 : ℚ) ≠ 0) ∧
    setTargets [] [10, 20, 30, 40, 50, 60] =
      [(10, -1, 0, 0), (20, -3/5, 0, 0), (30, -1/5, 0, 0),
       (40, 1/5, 0, 0), (50, 3/5, 0, 0), (60, 1, 0, 0)] := by
  refine ⟨?_, ?_, by norm_num, ?_⟩
  · norm_num [setTargets, mapSet, targetX]
  · norm_num [targetX]
  · norm_num [setTargets, mapSet, targetX, List.enum, List.enumFrom]

/-- C4 counterexample: a selected particle during liningUp is skipped by
the integrator (worker.js:280) — its position stays `0` although
`clampToBox(oldPosition + newVelocity) = clampToBox(0 + 1) = 1`, so the
per-axis equality claimed for every particle and every phase fails. -/
theorem lineup_selected_skip_breaks_clamp_equation :
    particleStep .liningUp true 1 100 1 V3.zero ⟨0, 0, 0⟩ ⟨1, 0, 0⟩ =
      (⟨0, 0, 0⟩, ⟨1, 0, 0⟩) ∧
    clampToBox 100 1 (0 + 1) = 1 ∧ ((1 : ℚ) ≠ 0) := by
  refine ⟨by simp [particleStep], ?_, by norm_num⟩
  unfold clampToBox
  rw [max_eq_right (by norm_num), min_eq_right (by norm_num)]
  norm_num

/-- C4 (amended): whenever the integrator processes a particle, each
axis ends at `clampToBox(oldPosition + newVelocity)`; a face hit pins
the position exactly to `±(halfBox - radius)` and multiplies that axis's
pre-bounce velocity by `-bounceFactor` with `bounceFactor = 0.8 < 1`.
The exception the counterexample forces: a selected particle during
liningUp is skipped entirely, keeping position and velocity unchanged. -/
theorem integrator_clamps_integrated_position
    (halfBox radius p v : ℚ) (hr : radius ≤ halfBox) :
    ((boundaryAxis halfBox radius p v).1 = clampToBox halfBox radius (p + v)) ∧
    (halfBox < p + v + radius →
      boundaryAxis halfBox radius p v = (halfBox - radius, -bounceFactor * v)) ∧
    (p + v - radius < -halfBox → ¬ halfBox < p + v + radius →
      boundaryAxis halfBox radius p v = (-halfBox + radius, -bounceFactor * v)) ∧
    bounceFactor = 4 / 5 ∧ bounceFactor < 1 ∧
    (∀ (damping : ℚ) (F pp vv : V3),
      particleStep .liningUp true damping halfBox radius F pp vv = (pp, vv)) := by
  have hwide : -halfBox + radius ≤ halfBox - radius := by linarith
  refine ⟨?_, ?_, ?_, rfl, by norm_num [bounceFactor], ?_⟩
  · unfold boundaryAxis clampToBox
    split_ifs with h1 h2
    · rw [max_eq_right (by linarith), min_eq_left (by linarith)]
    · rw [max_eq_left (by linarith), min_eq_right hwide]
    · rw [max_eq_right (by linarith), min_eq_right (by linarith)]
  · intro h1
    unfold boundaryAxis
    simp [h1]
  · intro h2 h1
    unfold boundaryAxis
    simp [h1, h2]
  · intro damping F pp vv
    simp [particleStep]

/-- C4 witness: at `halfBox = 100`, `radius = 1`, a particle at
`p = 99.5` moving at `v = 1` integrates to `100.5`, hits the face, is
pinned at `99 = clampToBox(99.5 + 1)` and rebounds at `-0.8·1`; and a
selected liningUp particle is returned untouched. -/
theorem integrator_clamps_integrated_position_witness :
    boundaryAxis 100 1 (199/2) 1 = (99, -bounceFactor * 1) ∧
    (boundaryAxis 100 1 (199/2) 1).1 = clampToBox 100 1 (199/2 + 1) ∧
    particleStep .liningUp true (1/2) 100 1 ⟨9, 9, 9⟩ ⟨3, 4, 5⟩ ⟨6, 7, 8⟩ =
      (⟨3, 4, 5⟩, ⟨6, 7, 8⟩) := by
  have h := integrator_clamps_integrated_position 100 1 (199/2) 1 (by norm_num)
  refine ⟨?_, h.1, h.2.2.2.2.2 (1/2) ⟨9, 9, 9⟩ ⟨3, 4, 5⟩ ⟨6, 7, 8⟩⟩
  rw [h.2.1 (by norm_num)]
  norm_num

/-- C6 counterexample: during the selection phase an unselected particle
with velocity 1 on the x axis (damping 1, no boundary contact) moves
from `x = 0` to `x = 1` — it is damped and integrated, not frozen as the
claim states. -/
theorem selection_phase_unselected_not_frozen :
    particleStep .selection false 1 100 1 V3.zero ⟨0, 0, 0⟩ ⟨1, 0, 0⟩ =
      (⟨1, 0, 0⟩, ⟨1, 0, 0⟩) ∧
    (⟨1, 0, 0⟩ : V3) ≠ ⟨0, 0, 0⟩ := by
  constructor
  · norm_num [particleStep, V3.scale, handleBoundaryCollisions, boundaryAxis, bounceFactor]
    intro h
    rcases h with h | h <;> exact Phase.noConfusion h
  · simp only [ne_eq, V3.mk.injEq]
    norm_num

/-- C6 (amended): during selection and liningUp the integrator applies
no phase-specific force at all; selected particles during liningUp are
skipped outright (position and velocity unchanged — no motion toward
their targets happens in the integrator), and every other particle is
simply damped and integrated with boundary clamping (so it is frozen
only if already at rest). -/
theorem selection_lineup_no_force (phase : Phase) (isSel : Bool)
    (damping halfBox radius : ℚ) (F p v : V3)
    (h : phase = .selection ∨ phase = .liningUp) :
    particleStep phase isSel damping halfBox radius F p v =
      if phase = .liningUp ∧ isSel = true then (p, v)
      else handleBoundaryCollisions halfBox radius p (V3.scale damping v) := by
  rcases h with rfl | rfl
  · simp [particleStep]
  · cases isSel <;> simp [particleStep]

/-- C7: entering Swirling does schedule
`blackholeStartTime = now + DURATIONS.SWIRL` (SimulationController.js:351),
but the scheduled exit is unreachable: `updatePhase` first requires the
phase progress to reach 1 (SimulationController.js:305-306), and
`calculatePhaseProgress` looks up `DURATIONS['SWIRLING']` — a key that
does not exist (the config key is `SWIRL`, part_005:22-27) — so the
progress is 0 for every tick and `updatePhase` leaves a swirling state
completely unchanged, whatever the timestamp. -/
theorem swirl_schedules_blackhole_but_timeout_unreachable
    (st st0 : CtrlState) (timestamp now : ℚ) (h : st.currentPhase = .swirling) :
    (setPhase st0 .swirling now).blackholeStartTime = now + DURATION_SWIRL ∧
    (setPhase st0 .swirling now).currentPhase = .swirling ∧
    updatePhase st timestamp = st := by
  refine ⟨rfl, rfl, ?_⟩
  have hprog : calculatePhaseProgress st timestamp = 0 := by
    unfold calculatePhaseProgress
    rw [h]
    rfl
  by_cases hs : st.simulationStarted = false
  · simp [updatePhase, hs]
  · simp [updatePhase, hs, hprog]

/-- C7 witness: `sampleSwirlState` has been swirling since time 0 with
`blackholeStartTime = 8000`; at the tick `timestamp = 9000`, well past
the scheduled instant, `updatePhase` still returns the state unchanged —
Blackhole is never requested; and entering Swirling at `now = 1000`
schedules `1000 + 8000`. -/
theorem swirl_schedules_blackhole_but_timeout_unreachable_witness :
    sampleSwirlState.blackholeStartTime ≤ 9000 ∧
    updatePhase sampleSwirlState 9000 = sampleSwirlState ∧
    (setPhase sampleFloatState .swirling 1000).blackholeStartTime = 1000 + DURATION_SWIRL := by
  have h := swirl_schedules_blackhole_but_timeout_unreachable sampleSwirlState
    sampleFloatState 9000 1000 rfl
  refine ⟨?_, h.2.2, h.1⟩
  show (8000 : ℚ) ≤ 9000
  norm_num

/-- C5: during the blackhole phase both integrator coefficients equal
`base + (max − base) · ease(p)` with
`p = min(1, (t − blackholeStartTime) / blackholeDuration)` and
`ease(t) = 2^(10t−10)`, `ease(0) = 0` — exactly the spec's formula; in
particular the coefficients start at the base values when the phase
begins and reach the maxima once the duration has elapsed. -/
theorem blackhole_coefficients_exponential_ease (p : BlackholeParams) (time : ℝ) :
    currentGravity p .blackhole time =
      specRampedCoefficient p.gravitationalPull p.maxGravitationalPull
        (blackholeProgress p time) ∧
    currentOrbital p .blackhole time =
      specRampedCoefficient p.orbitalVelocityFactor p.maxOrbitalVelocityFactor
        (blackholeProgress p time) ∧
    blackholeProgress p time = min 1 ((time - p.blackholeStartTime) / p.blackholeDuration) ∧
    easeInExpo 0 = 0 ∧
    (∀ t : ℝ, t ≠ 0 → easeInExpo t = (2 : ℝ) ^ (10 * t - 10)) ∧
    (time = p.blackholeStartTime → currentGravity p .blackhole time = p.gravitationalPull) ∧
    (0 < p.blackholeDuration → p.blackholeStartTime + p.blackholeDuration ≤ time →
      currentGravity p .blackhole time = p.maxGravitationalPull) := by
  refine ⟨by simp [currentGravity, specRampedCoefficient, easeInExpo],
    by simp [currentOrbital, specRampedCoefficient, easeInExpo],
    rfl, by simp [easeInExpo], fun t ht => by simp [easeInExpo, ht], ?_, ?_⟩
  · intro heq
    have hp : blackholeProgress p time = 0 := by
      rw [blackholeProgress, heq, sub_self, zero_div]
      exact min_eq_right zero_le_one
    simp [currentGravity, hp, easeInExpo]
  · intro hdur htime
    have hp : blackholeProgress p time = 1 := by
      rw [blackholeProgress]
      refine min_eq_left ?_
      rw [le_div_iff₀ hdur]
      linarith
    rw [currentGravity, if_pos rfl, hp]
    have hone : easeInExpo 1 = 1 := by
      rw [easeInExpo, if_neg one_ne_zero]
      norm_num
    rw [hone]
    ring

/-- C5 witness: concrete ramp — base gravity 1, maximum 3, phase start
500, duration 4000: at the start instant the coefficient is the base 1,
and at time 4500 (duration elapsed) it is the maximum 3. -/
theorem blackhole_coefficients_exponential_ease_witness :
    currentGravity ⟨1, 3, 0, 2, 500, 4000⟩ .blackhole 500 = 1 ∧
    currentGravity ⟨1, 3, 0, 2, 500, 4000⟩ .blackhole 4500 = 3 ∧
    easeInExpo 0 = 0 := by
  have h1 := blackhole_coefficients_exponential_ease ⟨1, 3, 0, 2, 500, 4000⟩ 500
  have h2 := blackhole_coefficients_exponential_ease ⟨1, 3, 0, 2, 500, 4000⟩ 4500
  refine ⟨h1.2.2.2.2.2.1 rfl, h2.2.2.2.2.2.2 (by norm_num) ?_, h1.2.2.2.1⟩
  show (500 : ℝ) + 4000 ≤ 4500
  norm_num

/-- On every phase, the source's transition check coincides with the
spec's five-edge table extended with self-loops. -/
theorem isValid_eq_claim_or_self :
    ∀ a b : Phase, isValidPhaseTransition a b = (claimTransitionTable a b || a == b) := by
  decide

/-- Whatever the fuel, any state `setPhaseChecked` returns carries the
requested phase when the transition is valid and the previous phase
otherwise — including through the nested draw triggered on entry into
selection. -/
theorem setPhaseChecked_currentPhase (rng : ℕ → ℕ) (selFuel : ℕ) :
    ∀ (fuel : ℕ) (st : CtrlState) (p : Phase) (now : ℚ) (st2 : CtrlState),
      setPhaseChecked rng selFuel fuel st p now = some st2 →
      st2.currentPhase =
        if isValidPhaseTransition st.currentPhase p then p else st.currentPhase := by
  intro fuel
  induction fuel with
  | zero =>
      intro st p now st2 h
      exact absurd h (by simp [setPhaseChecked])
  | succ fuel ih =>
      intro st p now st2 h
      unfold setPhaseChecked at h
      cases hv : isValidPhaseTransition st.currentPhase p with
      | false =>
          rw [if_pos hv] at h
          simp only [Option.some.injEq] at h
          subst h
          simp [hv]
      | true =>
          rw [if_neg (by simp [hv])] at h
          cases p with
          | selection =>
              simp only at h
              split at h
              · split at h
                · simp only [Option.some.injEq] at h
                  subst h
                  simp [hv]
                · split at h
                  · exact absurd h (by simp)
                  · have h3 := ih _ _ _ _ h
                    simp only [show isValidPhaseTransition Phase.selection Phase.swirling = false
                      from by decide] at h3
                    simp [hv, h3]
              · simp only [Option.some.injEq] at h
                subst h
                simp [hv]
          | floating => simp only [Option.some.injEq] at h; subst h; simp [hv]
          | swirling => simp only [Option.some.injEq] at h; subst h; simp [hv]
          | blackhole => simp only [Option.some.injEq] at h; subst h; simp [hv]
          | clashing => simp only [Option.some.injEq] at h; subst h; simp [hv]
          | liningUp => simp only [Option.some.injEq] at h; subst h; simp [hv]

/-- C3 counterexample: a request for the phase the controller is already
in — `floating → floating` — lies outside the claimed five-edge
transition table, yet `setPhaseChecked` accepts it: nothing is logged
and `phaseStartTime` is refreshed instead of the state being retained. -/
theorem phase_self_request_accepted :
    claimTransitionTable .floating .floating = false ∧
    isValidPhaseTransition .floating .floating = true ∧
    setPhaseChecked (fun _ => 0) 0 2 sampleFloatState .floating 5 =
      some { sampleFloatState with phaseStartTime := 5 } ∧
    ({ sampleFloatState with phaseStartTime := 5 } : CtrlState).invalidLog = [] ∧
    ({ sampleFloatState with phaseStartTime := 5 } : CtrlState).phaseStartTime ≠
      sampleFloatState.phaseStartTime := by
  refine ⟨by decide, by decide, rfl, rfl, ?_⟩
  show (5 : ℚ) ≠ sampleFloatState.phaseStartTime
  norm_num [sampleFloatState]

/-- C3 (amended): the part_002 controller validates phase requests
against the five-edge table *extended with self-loops*: any request that
is neither the direct successor nor the current phase itself is rejected
non-fatally — the attempt is logged and the whole state is retained —
while re-requesting the current phase is accepted (a no-op on the phase
value).  Consequently every accepted request keeps the phase or moves it
one step along Floating → Swirling → Blackhole → Clashing → Selection →
LiningUp — no phase is skipped or revisited — and LiningUp is terminal. -/
theorem phase_transitions_follow_fixed_order (rng : ℕ → ℕ) (selFuel fuel : ℕ)
    (st : CtrlState) (p : Phase) (now : ℚ) :
    (isValidPhaseTransition st.currentPhase p =
      (claimTransitionTable st.currentPhase p || st.currentPhase == p)) ∧
    (isValidPhaseTransition st.currentPhase p = false →
      setPhaseChecked rng selFuel (fuel + 1) st p now =
        some { st with invalidLog := (st.currentPhase, p) :: st.invalidLog }) ∧
    (∀ st2, setPhaseChecked rng selFuel fuel st p now = some st2 →
      st2.currentPhase =
        if isValidPhaseTransition st.currentPhase p then p else st.currentPhase) ∧
    (∀ a b : Phase, isValidPhaseTransition a b = true →
      b = a ∨ claimTransitionTable a b = true) ∧
    (∀ q : Phase, isValidPhaseTransition .liningUp q = true → q = .liningUp) := by
  refine ⟨isValid_eq_claim_or_self st.currentPhase p, ?_,
    fun st2 h => setPhaseChecked_currentPhase rng selFuel fuel st p now st2 h,
    by decide, by decide⟩
  intro hv
  unfold setPhaseChecked
  simp [hv]

/-- C3 witness: on the concrete fresh state, the out-of-order request
`floating → blackhole` is rejected and logged with the state otherwise
untouched, and the in-order request `floating → swirling` lands in
swirling. -/
theorem phase_transitions_follow_fixed_order_witness :
    setPhaseChecked (fun _ => 0) 0 3 sampleFloatState .blackhole 7 =
      some { sampleFloatState with invalidLog := [(Phase.floating, Phase.blackhole)] } ∧
    ({ sampleFloatState with
        currentPhase := .swirling
        phaseStartTime := 7
        blackholeStartTime := 7 + DURATION_SWIRL } : CtrlState).currentPhase = .swirling := by
  have h := phase_transitions_follow_fixed_order (fun _ => 0) 0 2 sampleFloatState .blackhole 7
  have h1 := phase_transitions_follow_fixed_order (fun _ => 0) 0 1 sampleFloatState .swirling 7
  constructor
  · exact h.2.1 (by decide)
  · have h3 := h1.2.2.1
      { sampleFloatState with
          currentPhase := .swirling
          phaseStartTime := 7
          blackholeStartTime := 7 + DURATION_SWIRL } rfl
    simp [sampleFloatState] at h3
    exact h3

/-- C6 witness: concrete liningUp evaluations — an unselected particle
is damped and integrated (the force argument `⟨9,9,9⟩` is ignored), a
selected one is returned untouched. -/
theorem selection_lineup_no_force_witness :
    particleStep .liningUp false (1/2) 100 1 ⟨9, 9, 9⟩ ⟨0, 0, 0⟩ ⟨2, 0, 0⟩ =
      handleBoundaryCollisions 100 1 ⟨0, 0, 0⟩ (V3.scale (1/2) ⟨2, 0, 0⟩) ∧
    particleStep .liningUp true (1/2) 100 1 ⟨9, 9, 9⟩ ⟨0, 0, 0⟩ ⟨2, 0, 0⟩ =
      (⟨0, 0, 0⟩, ⟨2, 0, 0⟩) := by
  have h1 := selection_lineup_no_force .liningUp false (1/2) 100 1 ⟨9, 9, 9⟩
    ⟨0, 0, 0⟩ ⟨2, 0, 0⟩ (Or.inr rfl)
  have h2 := selection_lineup_no_force .liningUp true (1/2) 100 1 ⟨9, 9, 9⟩
    ⟨0, 0, 0⟩ ⟨2, 0, 0⟩ (Or.inr rfl)
  constructor
  · simpa using h1
  · simpa using h2

/-- C8: the worker's single-flight guard — a request delivered while a
previous one is still being processed (the `isProcessing` flag is up)
is dropped, not queued: it gets no response and leaves the state
untouched, so the buffers after the interleaved pair equal the buffers
after the first request alone. -/
theorem second_update_dropped_not_queued (st : WorkerState) (m1 m2 : WMsg)
    (F1 F2 : ℕ → V3) (h : st.isProcessing = false) :
    runInterleaved st m1 m2 F1 F2 = runSingle st m1 F1 ∧
    (workerOnMessage { st with isProcessing := true } m2 F2).2 = none ∧
    (workerOnMessage { st with isProcessing := true } m2 F2).1 =
      { st with isProcessing := true } := by
  refine ⟨?_, by simp [workerOnMessage], by simp [workerOnMessage]⟩
  unfold runInterleaved runSingle workerOnMessage
  simp [h]

/-- C8 witness: on the concrete worker state, a `reset` with an `update`
delivered mid-processing ends in exactly the state of the `reset`
alone, and the interleaved `update` is answered with nothing. -/
theorem second_update_dropped_not_queued_witness :
    runInterleaved sampleWorkerState .reset
        (.update ⟨1, 200, 1⟩ .floating 32) (fun _ => V3.zero) (fun _ => V3.zero) =
      runSingle sampleWorkerState .reset (fun _ => V3.zero) ∧
    (workerOnMessage { sampleWorkerState with isProcessing := true }
        (.update ⟨1, 200, 1⟩ .floating 32) (fun _ => V3.zero)).2 = none := by
  have h := second_update_dropped_not_queued sampleWorkerState .reset
    (.update ⟨1, 200, 1⟩ .floating 32) (fun _ => V3.zero) (fun _ => V3.zero) rfl
  exact ⟨h.1, h.2.1⟩

/-- Folding the selection effect over indices not containing `j` leaves
entry `j` of the velocity buffer unchanged. -/
theorem applySelectionEffects_get_not_mem (g : ℚ) :
    ∀ (sel : List ℕ) (vs : List V3) (j : ℕ), j ∉ sel →
      (applySelectionEffects sel g vs)[j]? = vs[j]? := by
  intro sel
  induction sel with
  | nil => intro vs j _; rfl
  | cons a l ih =>
      intro vs j hj
      have hja : a ≠ j := fun h => hj (h ▸ List.mem_cons_self a l)
      have hjl : j ∉ l := fun h => hj (List.mem_cons_of_mem a h)
      show (applySelectionEffects l g
        (List.modify (fun v => ⟨v.x, v.y, v.z + 1 / 2 * g⟩) a vs))[j]? = vs[j]?
      rw [ih _ j hjl]
      exact List.getElem?_modify_ne _ vs hja

/-- Folding the selection effect over a duplicate-free index list adds
`g/2` to the z velocity of each listed particle, once. -/
theorem applySelectionEffects_get_mem (g : ℚ) :
    ∀ (sel : List ℕ) (vs : List V3) (i : ℕ), i ∈ sel → sel.Nodup →
      (applySelectionEffects sel g vs)[i]? =
        (vs[i]?).map (fun v => ⟨v.x, v.y, v.z + 1 / 2 * g⟩) := by
  intro sel
  induction sel with
  | nil => intro vs i h; exact absurd h (List.not_mem_nil i)
  | cons a l ih =>
      intro vs i hi hnd
      have hnd2 := List.nodup_cons.mp hnd
      show (applySelectionEffects l g
        (List.modify (fun v => ⟨v.x, v.y, v.z + 1 / 2 * g⟩) a vs))[i]? = _
      rcases List.mem_cons.mp hi with rfl | hil
      · rw [applySelectionEffects_get_not_mem g l _ i hnd2.1]
        rw [List.getElem?_modify_eq]
        rfl
      · rw [ih _ i hil hnd2.2]
        rw [List.getElem?_modify_ne _ vs (fun h => hnd2.1 (by rw [h]; exact hil))]

/-- C10: processing an `updateSelected` message records the selection
and mutates only the velocity buffer: each selected particle gains
`0.5 · glowIntensity` on its z velocity (glow defaulting to `1.0` when
the params payload is absent), every other velocity entry and the whole
position buffer are untouched, and no response is posted. -/
theorem updateSelected_adds_glow_to_z (st : WorkerState) (sel : List ℕ)
    (prm : Option SelParams) (F : ℕ → V3) (hnd : sel.Nodup) :
    ((workerCommand st (.updateSelected sel prm) F).1.positions = st.positions) ∧
    ((workerCommand st (.updateSelected sel prm) F).1.selected = sel) ∧
    ((workerCommand st (.updateSelected sel prm) F).2 = none) ∧
    (prm = none → effectiveGlow prm = 1) ∧
    (∀ i ∈ sel, (workerCommand st (.updateSelected sel prm) F).1.velocities[i]? =
      (st.velocities[i]?).map
        (fun v => ⟨v.x, v.y, v.z + 1 / 2 * effectiveGlow prm⟩)) ∧
    (∀ j, j ∉ sel →
      (workerCommand st (.updateSelected sel prm) F).1.velocities[j]? =
        st.velocities[j]?) := by
  refine ⟨rfl, rfl, rfl, fun h => by rw [h]; rfl, ?_, ?_⟩
  · intro i hi
    exact applySelectionEffects_get_mem (effectiveGlow prm) sel st.velocities i hi hnd
  · intro j hj
    exact applySelectionEffects_get_not_mem (effectiveGlow prm) sel st.velocities j hj

/-- C10 witness: on the concrete worker state, selecting particle 1 with
an absent params payload adds `0.5 · 1.0` to its z velocity and leaves
particle 0's velocity and all positions unchanged. -/
theorem updateSelected_adds_glow_to_z_witness :
    ((workerCommand sampleWorkerState (.updateSelected [1] none)
        (fun _ => V3.zero)).1.velocities[1]? = some ⟨0, 1, 0 + 1 / 2 * 1⟩) ∧
    ((workerCommand sampleWorkerState (.updateSelected [1] none)
        (fun _ => V3.zero)).1.velocities[0]? = some ⟨1, 0, 0⟩) ∧
    ((workerCommand sampleWorkerState (.updateSelected [1] none)
        (fun _ => V3.zero)).1.positions = sampleWorkerState.positions) := by
  have h := updateSelected_adds_glow_to_z sampleWorkerState [1] none
    (fun _ => V3.zero) (by simp)
  refine ⟨?_, ?_, h.1⟩
  · rw [h.2.2.2.2.1 1 (by simp)]
    rfl
  · rw [h.2.2.2.2.2 0 (by simp)]
    rfl
